import Mathlib

/-!
Verification development for the intake state engine of `init-intake`.

The engine lives in `src/lib/brain.ts` (extraction, scoring, missing-field
resolution), `src/lib/bundles.ts` (bundle matcher) and the API route's POST
handler (turn orchestration).  Pure control flow, arithmetic and list logic
are translated directly.  Regular-expression tests and captures on the raw
utterance are modelled parametrically: a `TextFeatures` record carries, for
each regex of the source, the boolean result of its `.test` / the captured
value of its `.match`, and every field is documented with the exact source
regex it stands for.  The one regex family that the engine re-applies to
*stored* state (`_isTightDeadline` over `deadlineText`) is implemented
concretely over strings.
-/

-- ─── Enumerations (src/lib/types.ts) ─────────────────────────────────────────

/-- `ShippingType` from src/lib/types.ts: "individual" | "bulk" | "unknown". -/
inductive ShippingType where
  | individual
  | bulk
  | unknown
deriving DecidableEq, Repr

/-- `BrandingType` from src/lib/types.ts:
"embroidery" | "laser" | "insert" | "sticker" | "none" | "unknown". -/
inductive BrandingType where
  | embroidery
  | laser
  | insert
  | sticker
  | noBranding
  | unknown
deriving DecidableEq, Repr

/-- `DistributionTiming` from src/lib/types.ts: "all_at_once" | "over_time" | "unknown". -/
inductive DistributionTiming where
  | all_at_once
  | over_time
  | unknown
deriving DecidableEq, Repr

/-- `AddressHandling` from src/lib/types.ts: "provided" | "handled_by_us" | "unknown". -/
inductive AddressHandling where
  | provided
  | handled_by_us
  | unknown
deriving DecidableEq, Repr

/-- `ComplexityMode` from src/lib/types.ts: "streamlined" | "assisted" | "high_touch". -/
inductive ComplexityMode where
  | streamlined
  | assisted
  | high_touch
deriving DecidableEq, Repr

-- ─── ChatState (src/lib/types.ts) ────────────────────────────────────────────

/-- `ChatState` from src/lib/types.ts.  Every field is optional (`undefined`
until detected).  JavaScript numbers are modelled as `ℚ`: `quantity` is
produced by `parseInt`/`Math.round` in brain.ts but by `parseFloat` in the
route's bare-number pre-pass, so it must be able to hold non-integers.
`brandingNeedsQualification` models the dynamically attached
`__brandingNeedsQualification` property (absent = `false`). -/
structure ChatState where
  quantity : Option ℚ
  budgetPerUnitUsd : Option ℚ
  shippingType : Option ShippingType
  branding : Option BrandingType
  international : Option Bool
  email : Option String
  phone : Option String
  deadlineText : Option String
  distributionTiming : Option DistributionTiming
  addressHandling : Option AddressHandling
  brandingNeedsQualification : Bool
deriving DecidableEq, Repr

/-- The empty session state: every field `undefined`, no dynamic flag. -/
def emptyChatState : ChatState where
  quantity := Option.none
  budgetPerUnitUsd := Option.none
  shippingType := Option.none
  branding := Option.none
  international := Option.none
  email := Option.none
  phone := Option.none
  deadlineText := Option.none
  distributionTiming := Option.none
  addressHandling := Option.none
  brandingNeedsQualification := false

-- ─── JavaScript numeric helpers ──────────────────────────────────────────────

/-- JavaScript `Math.round`: round half toward positive infinity. -/
def jsRound (x : ℚ) : ℤ := Int.floor (x + 1 / 2)

/-- `Math.round(x * 100) / 100` — round to cents, as used for budget midpoints. -/
def roundCents (x : ℚ) : ℚ := (jsRound (x * 100) : ℚ) / 100

/-- JavaScript `String.prototype.trim`: strip whitespace from both ends. -/
def jsTrim (s : String) : String :=
  String.mk (((s.toList.dropWhile Char.isWhitespace).reverse.dropWhile
    Char.isWhitespace).reverse)

-- ─── TextFeatures: regex-match outcomes of one utterance ─────────────────────

/-- Outcomes of the regular-expression tests and captures that
`extractFromText` (src/lib/brain.ts) applies to the trimmed utterance `t`.
Each field is documented with the source regex it denotes.  For the
single-pattern cascades, the source loops over an ordered pattern list and
skips matches whose captured number is not positive; the corresponding
feature holds the captured value of the first pattern whose capture is a
positive number, or `none` when no pattern yields one. -/
structure TextFeatures where
  /-- Captures `(A, B)` of the first matching quantity range alternative:
  `between A and B (people|…)?`, `A to B (people|…)`, `A-B (people|…)`. -/
  rangeQty : Option (Nat × Nat)
  /-- First positive capture of the six single-number quantity patterns
  (number + product noun, number + quantity noun, `for N`, `sending N`,
  swag/onboarding context). -/
  qtySingle : Option Nat
  /-- Leading-number capture `^\s*(\d+)\b` when the swag-context regex
  `swag|kit|box|welcome|onboarding|new hire|new employee` also matches,
  and the capture is positive. -/
  qtyFallback : Option Nat
  /-- Captures `(A, B)` of the first matching budget range alternative:
  `between A and B (each|per |dollars?|USD?)`, `$A to $B (each|per )`,
  `$A-$B (each|per )`. -/
  rangeBudget : Option (ℚ × ℚ)
  /-- First positive capture of the seven single-number budget patterns
  (`$N each/per-X`, `N each/per-X`, `under/<=/less than/max N`,
  `around/about/~ N …`, `around $N`, trailing `$N`, trailing `N$`). -/
  budgetSingle : Option ℚ
  /-- `home address(es)|individual address(es)|ship to each|multiple addresses`. -/
  individualKw : Bool
  /-- `\bbulk\b|one location|ship to (the )?office|single address|to our hq`. -/
  bulkKw : Bool
  /-- `not sure|don'?t know|unsure|open to|flexible|no idea`. -/
  uncertainPhrase : Bool
  /-- `brand|branding|logo|embroidery|engraving|custom`. -/
  brandingVocab : Bool
  /-- First hit of the branding priority ladder
  embroidery > laser > insert > sticker > none. -/
  brandingHit : Option BrandingType
  /-- `\b(not sure|don'?t know|unsure|no idea|no clue|idk|skip)\b`. -/
  unsurePhrase : Bool
  /-- Whether the trimmed text satisfies `t.length < 60`. -/
  lenUnder60 : Bool
  /-- `all at once|delivered at once|one delivery|single delivery|all at one time`. -/
  allAtOnceKw : Bool
  /-- `over time|stored and distribut…|stored later|distribut(e|ed) later|store and distribut…`. -/
  overTimeKw : Bool
  /-- `we (will|'ll|provide)|we have|i('ll| will) provide|provided by us|our addresses|provide the addresses`. -/
  provideKw : Bool
  /-- `you (handle|collect)|handle collection|handle distribut…|you collect|handled by (you|us)`. -/
  handleKw : Bool
  /-- Bare affirmative reply `^(yes|yeah|yep|yup|sure|correct|we do|we have)[.!]?$`. -/
  bareYes : Bool
  /-- Bare negative reply `^(no|nope|nah|negative|we don't|we do not|us only|domestic only)[.!]?$`. -/
  bareNo : Bool
  /-- `\b(us only|domestic only|no international|across the us|within the us|in the us|domestic)\b`. -/
  noIntlKw : Bool
  /-- `international|outside (the )?us|canada|united kingdom|\buk\b|\beu\b|europe|asia`. -/
  intlKw : Bool
  /-- First match of the RFC-5322-ish email regex, as matched (not yet lower-cased). -/
  emailCapture : Option String
  /-- First match of the phone regex `\+?\d[\d\s\-.()]{8,}\d|\b\d{10,}\b`. -/
  phoneCapture : Option String
  /-- Capture of the first matching deadline pattern (`by …`, `before …`,
  `need(ed) by/before/in …`, `deadline …`, `in N weeks/days/months`,
  `mid-Month`, `ASAP`, `urgent(ly)`), before trimming. -/
  deadlineCapture : Option String
deriving DecidableEq, Repr

/-- Features of an utterance on which no extraction regex fires. -/
def noFeatures : TextFeatures where
  rangeQty := Option.none
  qtySingle := Option.none
  qtyFallback := Option.none
  rangeBudget := Option.none
  budgetSingle := Option.none
  individualKw := false
  bulkKw := false
  uncertainPhrase := false
  brandingVocab := false
  brandingHit := Option.none
  unsurePhrase := false
  lenUnder60 := false
  allAtOnceKw := false
  overTimeKw := false
  provideKw := false
  handleKw := false
  bareYes := false
  bareNo := false
  noIntlKw := false
  intlKw := false
  emailCapture := Option.none
  phoneCapture := Option.none
  deadlineCapture := Option.none

-- ─── extractFromText (src/lib/brain.ts, lines 37–275) ────────────────────────

/-- Quantity block: range first (`Math.round((a+b)/2)` whenever both captures
are positive, overwriting any previous value), then the single-pattern
cascade and the swag fallback, both gated on `next.quantity === undefined`. -/
def stepQuantity (f : TextFeatures) (st : ChatState) : ChatState :=
  let st1 :=
    match f.rangeQty with
    | some (a, b) =>
        if 0 < a ∧ 0 < b then
          { st with quantity := some ((jsRound (((a : ℚ) + (b : ℚ)) / 2) : ℤ) : ℚ) }
        else st
    | Option.none => st
  let st2 :=
    if st1.quantity = Option.none then
      match f.qtySingle with
      | some n => { st1 with quantity := some (n : ℚ) }
      | Option.none => st1
    else st1
  if st2.quantity = Option.none then
    match f.qtyFallback with
    | some n => { st2 with quantity := some (n : ℚ) }
    | Option.none => st2
  else st2

/-- Budget block: range first (`Math.round(((a+b)/2)*100)/100` whenever both
captures are positive, overwriting any previous value), then the
single-pattern cascade gated on `next.budgetPerUnitUsd === undefined`. -/
def stepBudget (f : TextFeatures) (st : ChatState) : ChatState :=
  let st1 :=
    match f.rangeBudget with
    | some (a, b) =>
        if 0 < a ∧ 0 < b then
          { st with budgetPerUnitUsd := some (roundCents ((a + b) / 2)) }
        else st
    | Option.none => st
  if st1.budgetPerUnitUsd = Option.none then
    match f.budgetSingle with
    | some n => { st1 with budgetPerUnitUsd := some n }
    | Option.none => st1
  else st1

/-- Shipping block: individual keywords checked before bulk keywords. -/
def stepShipping (f : TextFeatures) (st : ChatState) : ChatState :=
  if f.individualKw then { st with shippingType := some ShippingType.individual }
  else if f.bulkKw then { st with shippingType := some ShippingType.bulk }
  else st

/-- Branding block: when the uncertainty regex and the branding-vocabulary
regex both match, clear `branding` and set the dynamic
`__brandingNeedsQualification` flag; otherwise apply the priority ladder. -/
def stepBranding (f : TextFeatures) (st : ChatState) : ChatState :=
  if f.uncertainPhrase && f.brandingVocab then
    { st with branding := Option.none, brandingNeedsQualification := true }
  else
    match f.brandingHit with
    | some t => { st with branding := some t }
    | Option.none => st

/-- Distribution-timing block, gated on `shippingType === "bulk"` and the
field being unset: short unsure phrase → unknown, else all-at-once phrasing,
else over-time phrasing. -/
def stepDistribution (f : TextFeatures) (st : ChatState) : ChatState :=
  if st.shippingType = some ShippingType.bulk ∧ st.distributionTiming = Option.none then
    if f.unsurePhrase && f.lenUnder60 then
      { st with distributionTiming := some DistributionTiming.unknown }
    else if f.allAtOnceKw then
      { st with distributionTiming := some DistributionTiming.all_at_once }
    else if f.overTimeKw then
      { st with distributionTiming := some DistributionTiming.over_time }
    else st
  else st

/-- Address-handling block, gated on `shippingType === "individual"` and the
field being unset: short unsure phrase → unknown, else provided phrasing,
else handled-by-us phrasing. -/
def stepAddress (f : TextFeatures) (st : ChatState) : ChatState :=
  if st.shippingType = some ShippingType.individual ∧ st.addressHandling = Option.none then
    if f.unsurePhrase && f.lenUnder60 then
      { st with addressHandling := some AddressHandling.unknown }
    else if f.provideKw then
      { st with addressHandling := some AddressHandling.provided }
    else if f.handleKw then
      { st with addressHandling := some AddressHandling.handled_by_us }
    else st
  else st

/-- International block: bare yes → true; bare no or explicit domestic
phrasing → false; otherwise keyword detection sets true only. -/
def stepInternational (f : TextFeatures) (st : ChatState) : ChatState :=
  if f.bareYes then { st with international := some true }
  else if f.bareNo || f.noIntlKw then { st with international := some false }
  else if f.intlKw then { st with international := some true }
  else st

/-- Email block: first matching address, lower-cased. -/
def stepEmail (f : TextFeatures) (st : ChatState) : ChatState :=
  match f.emailCapture with
  | some e => { st with email := some e.toLower }
  | Option.none => st

/-- Phone block: the match is kept only when it contains at least ten digits;
the stored value is the trimmed raw match. -/
def stepPhone (f : TextFeatures) (st : ChatState) : ChatState :=
  match f.phoneCapture with
  | some p =>
      if 10 ≤ (p.toList.filter Char.isDigit).length then { st with phone := some (jsTrim p) }
      else st
  | Option.none => st

/-- Deadline block: first matching pattern's captured phrase, trimmed,
stored verbatim. -/
def stepDeadline (f : TextFeatures) (st : ChatState) : ChatState :=
  match f.deadlineCapture with
  | some d => { st with deadlineText := some (jsTrim d) }
  | Option.none => st

/-- `extractFromText(text, prevState)` from src/lib/brain.ts: the per-field
blocks run in source order on a copy of the previous state. -/
def extractFromText (f : TextFeatures) (prev : ChatState) : ChatState :=
  stepDeadline f (stepPhone f (stepEmail f (stepInternational f (stepAddress f
    (stepDistribution f (stepBranding f (stepShipping f (stepBudget f
      (stepQuantity f prev)))))))))

-- ─── _isTightDeadline (src/lib/brain.ts, lines 402–416) ──────────────────────

/-- JavaScript `\w`: ASCII letter, digit or underscore. -/
def isWordChar (c : Char) : Bool := c.isAlphanum || c == '_'

/-- A `\b` position relative to the previous character (none = start of input). -/
def boundaryBefore : Option Char → Bool
  | Option.none => true
  | some c => !isWordChar c

/-- A `\b` position relative to the remaining input (empty = end of input). -/
def boundaryAfter : List Char → Bool
  | [] => true
  | c :: _ => !isWordChar c

/-- Whether the second list starts with the first. -/
def startsWithChars : List Char → List Char → Bool
  | [], _ => true
  | _ :: _, [] => false
  | p :: ps, c :: cs => p == c && startsWithChars ps cs

/-- Leftmost search for a literal word, requiring a word boundary before it
and, when `endB` is set, after it (models `\bword\b`, or `\bword` when
`endB := false`). -/
def hasWordFrom (pat : List Char) (endB : Bool) : Option Char → List Char → Bool
  | _, [] => false
  | prev, c :: rest =>
      (boundaryBefore prev && startsWithChars pat (c :: rest) &&
        (!endB || boundaryAfter ((c :: rest).drop pat.length))) ||
      hasWordFrom pat endB (some c) rest

/-- Split off a maximal run of whitespace (JavaScript `\s+`; the source only
ever sees ASCII whitespace here). -/
def splitSpaces : List Char → List Char × List Char
  | [] => ([], [])
  | c :: rest =>
      if c.isWhitespace then
        let (sp, r) := splitSpaces rest
        (c :: sp, r)
      else ([], c :: rest)

/-- Split off a maximal run of decimal digits (`\d+`). -/
def splitDigits : List Char → List Char × List Char
  | [] => ([], [])
  | c :: rest =>
      if c.isDigit then
        let (ds, r) := splitDigits rest
        (c :: ds, r)
      else ([], c :: rest)

/-- Numeric value of a digit run (what `parseInt` returns on it). -/
def digitsVal (ds : List Char) : Nat := ds.foldl (fun a c => a * 10 + (c.toNat - 48)) 0

/-- Try `\bin\s+(\d+)\s+<unit>s?\b` at exactly this position; returns the
captured number on success. -/
def inNumberUnitAt (unit : List Char) (prev : Option Char) (l : List Char) : Option Nat :=
  if !boundaryBefore prev then Option.none
  else if !startsWithChars ['i', 'n'] l then Option.none
  else
    let l1 := l.drop 2
    let (sp1, l2) := splitSpaces l1
    if sp1.isEmpty then Option.none
    else
      let (ds, l3) := splitDigits l2
      if ds.isEmpty then Option.none
      else
        let (sp2, l4) := splitSpaces l3
        if sp2.isEmpty then Option.none
        else if !startsWithChars unit l4 then Option.none
        else
          match l4.drop unit.length with
          | 's' :: l6 => if boundaryAfter l6 then some (digitsVal ds) else Option.none
          | l5 => if boundaryAfter l5 then some (digitsVal ds) else Option.none

/-- Leftmost match of `\bin\s+(\d+)\s+<unit>s?\b` (what `t.match(...)` finds). -/
def findInNumberUnit (unit : List Char) : Option Char → List Char → Option Nat
  | _, [] => Option.none
  | prev, c :: rest =>
      match inNumberUnitAt unit prev (c :: rest) with
      | some n => some n
      | Option.none => findInNumberUnit unit (some c) rest

/-- `_isTightDeadline(deadlineText)` from src/lib/brain.ts: lower-case the
phrase, then `\basap\b`, `\burgent`, `\brush\b`, `\bimmediately\b`,
`in N weeks` with N ≤ 2, `in N days` with N ≤ 14. -/
def isTightDeadline (s : String) : Bool :=
  let t := s.toList.map Char.toLower
  hasWordFrom "asap".toList true Option.none t ||
  hasWordFrom "urgent".toList false Option.none t ||
  hasWordFrom "rush".toList true Option.none t ||
  hasWordFrom "immediately".toList true Option.none t ||
  (match findInNumberUnit "week".toList Option.none t with
   | some n => decide (n ≤ 2)
   | Option.none => false) ||
  (match findInNumberUnit "day".toList Option.none t with
   | some n => decide (n ≤ 14)
   | Option.none => false)

-- ─── computeComplexity (src/lib/brain.ts, lines 334–392) ─────────────────────

/-- `ComplexityResult` from src/lib/types.ts. -/
structure ComplexityResult where
  score : Nat
  mode : ComplexityMode
  reasons : List String
deriving DecidableEq, Repr

/-- `computeComplexity(state)`: additive score starting at 1, clamped to
[1, 5]; mode from the clamped score's band, then the
`__brandingNeedsQualification` override forces "assisted".  The source
pushes each reason at the moment its rule increments the score; the reason
list is assembled here from the same conditions in the same order. -/
def computeComplexity (s : ChatState) : ComplexityResult :=
  let score := 1
  let score := if s.budgetPerUnitUsd = Option.none then score + 1 else score
  let score := if s.shippingType = some ShippingType.individual then score + 2 else score
  let score := if s.distributionTiming = some DistributionTiming.over_time then score + 1 else score
  let score := if s.addressHandling = some AddressHandling.handled_by_us then score + 1 else score
  let score := if s.branding = some BrandingType.laser ∨ s.branding = some BrandingType.embroidery
    then score + 1 else score
  let score := if s.quantity.any (fun q => decide ((200 : ℚ) < q)) then score + 1 else score
  let score := if s.international = some true then score + 2 else score
  let score := if s.deadlineText.any isTightDeadline then score + 1 else score
  let score := if s.brandingNeedsQualification then score + 1 else score
  let score := min 5 (max 1 score)
  let mode :=
    if score ≤ 2 then ComplexityMode.streamlined
    else if score ≤ 4 then ComplexityMode.assisted
    else ComplexityMode.high_touch
  let mode := if s.brandingNeedsQualification then ComplexityMode.assisted else mode
  let reasons :=
    (if s.budgetPerUnitUsd = Option.none then ["Budget not provided"] else []) ++
    (if s.shippingType = some ShippingType.individual then ["Individual shipping"] else []) ++
    (if s.distributionTiming = some DistributionTiming.over_time
      then ["Storage and distribution over time"] else []) ++
    (if s.addressHandling = some AddressHandling.handled_by_us
      then ["Address collection and distribution handled by us"] else []) ++
    (if s.branding = some BrandingType.laser ∨ s.branding = some BrandingType.embroidery
      then ["High-touch branding (laser/embroidery)"] else []) ++
    (if s.quantity.any (fun q => decide ((200 : ℚ) < q)) then ["Large quantity"] else []) ++
    (if s.international = some true then ["International shipping"] else []) ++
    (if s.deadlineText.any isTightDeadline then ["Tight deadline"] else []) ++
    (if s.brandingNeedsQualification then ["Branding needs clarification"] else [])
  { score := score, mode := mode, reasons := reasons }

-- ─── nextMissing (src/lib/brain.ts, lines 467–498) ───────────────────────────

/-- `nextMissing(state)`: still-needed field keys pushed in the canonical
order; the conditional keys are gated on the shipping type. -/
def nextMissing (s : ChatState) : List String :=
  (if s.quantity.isNone then ["quantity"] else []) ++
  (if s.budgetPerUnitUsd.isNone then ["budgetPerUnitUsd"] else []) ++
  (if s.deadlineText.isNone then ["deadlineText"] else []) ++
  (if s.shippingType.isNone then ["shippingType"] else []) ++
  (if s.branding.isNone then ["branding"] else []) ++
  (if decide (s.shippingType = some ShippingType.individual) && s.international.isNone
    then ["international"] else []) ++
  (if decide (s.shippingType = some ShippingType.bulk) && s.distributionTiming.isNone
    then ["distributionTiming"] else []) ++
  (if decide (s.shippingType = some ShippingType.individual) && s.addressHandling.isNone
    then ["addressHandling"] else []) ++
  (if s.email.isNone && s.phone.isNone then ["email"] else [])

-- ─── Bundles (src/lib/bundles.ts) ────────────────────────────────────────────

/-- `Bundle` catalog entry. -/
structure Bundle where
  id : String
  name : String
  unitPrice : ℚ
  leadTimeDays : Nat
  minQty : Nat
  maxQty : Nat
  eligibleShipping : List ShippingType
  eligibleBranding : List BrandingType
  notes : String
deriving DecidableEq, Repr

/-- The static `BUNDLES` catalog. -/
def BUNDLES : List Bundle := [
  { id := "snack-box", name := "Snack Box", unitPrice := 18, leadTimeDays := 5,
    minQty := 25, maxQty := 500,
    eligibleShipping := [ShippingType.bulk, ShippingType.individual, ShippingType.unknown],
    eligibleBranding := [BrandingType.noBranding, BrandingType.sticker, BrandingType.insert,
      BrandingType.unknown],
    notes := "Curated snacks, insert or sticker. Low complexity, fast ship." },
  { id := "notebook-pen", name := "Notebook + Pen", unitPrice := 22, leadTimeDays := 7,
    minQty := 50, maxQty := 1000,
    eligibleShipping := [ShippingType.bulk, ShippingType.individual, ShippingType.unknown],
    eligibleBranding := [BrandingType.noBranding, BrandingType.sticker, BrandingType.insert,
      BrandingType.laser, BrandingType.unknown],
    notes := "Laser engraving optional on pen or notebook cover." },
  { id := "coffee-kit", name := "Coffee Kit", unitPrice := 28, leadTimeDays := 5,
    minQty := 30, maxQty := 400,
    eligibleShipping := [ShippingType.bulk, ShippingType.individual, ShippingType.unknown],
    eligibleBranding := [BrandingType.noBranding, BrandingType.sticker, BrandingType.insert,
      BrandingType.unknown],
    notes := "Mug or tumbler, coffee samples. Sticker or insert." },
  { id := "throw-blanket", name := "Cozy Throw Blanket", unitPrice := 35, leadTimeDays := 10,
    minQty := 25, maxQty := 200,
    eligibleShipping := [ShippingType.bulk, ShippingType.individual, ShippingType.unknown],
    eligibleBranding := [BrandingType.noBranding, BrandingType.insert, BrandingType.unknown],
    notes := "Premium throw with optional note card insert." },
  { id := "wellness-tea-kit", name := "Wellness / Tea Kit", unitPrice := 24, leadTimeDays := 6,
    minQty := 25, maxQty := 350,
    eligibleShipping := [ShippingType.bulk, ShippingType.individual, ShippingType.unknown],
    eligibleBranding := [BrandingType.noBranding, BrandingType.sticker, BrandingType.insert,
      BrandingType.unknown],
    notes := "Tea, honey stick, tin. Insert or sticker." }]

/-- `SuggestedBundle`: the projected shape returned to the caller. -/
structure SuggestedBundle where
  name : String
  unitPrice : ℚ
  leadTimeDays : Nat
  why : Option String
deriving DecidableEq, Repr

/-- The comparator of `suggestBundles`: lead time ascending, ties broken by
unit price descending. -/
def bundleLE (a b : Bundle) : Prop :=
  a.leadTimeDays < b.leadTimeDays ∨
    (a.leadTimeDays = b.leadTimeDays ∧ b.unitPrice ≤ a.unitPrice)

instance : DecidableRel bundleLE := fun a b =>
  inferInstanceAs (Decidable (a.leadTimeDays < b.leadTimeDays ∨
    (a.leadTimeDays = b.leadTimeDays ∧ b.unitPrice ≤ a.unitPrice)))

/-- The filter body of `suggestBundles` (early-return chain of the source). -/
def bundleOk (qty maxUnitPrice : ℚ) (shipping : ShippingType) (branding : BrandingType)
    (b : Bundle) : Bool :=
  if maxUnitPrice < b.unitPrice then false
  else if qty < (b.minQty : ℚ) ∨ (b.maxQty : ℚ) < qty then false
  else if shipping ∉ b.eligibleShipping then false
  else if branding ∉ b.eligibleBranding then false
  else true

/-- `suggestBundles(state)`: empty unless quantity and budget are present;
filter by margin, quantity range and eligibility (absent shipping/branding
treated as unknown); sort by the comparator; take 3; annotate fast
turnaround.  The source sorts with `Array.prototype.sort`; every bundle in
the static catalog has a distinct (leadTimeDays, unitPrice) key, so all
sorting algorithms agree and insertion sort is used here. -/
def suggestBundles (s : ChatState) : List SuggestedBundle :=
  match s.quantity, s.budgetPerUnitUsd with
  | some qty, some budget =>
      let shipping := s.shippingType.getD ShippingType.unknown
      let branding := s.branding.getD BrandingType.unknown
      let maxUnitPrice := budget * (0.75 : ℚ)
      let eligible := BUNDLES.filter (bundleOk qty maxUnitPrice shipping branding)
      let sorted := List.insertionSort bundleLE eligible
      (sorted.take 3).map (fun b =>
        { name := b.name, unitPrice := b.unitPrice, leadTimeDays := b.leadTimeDays,
          why := if b.leadTimeDays ≤ 6 then some "Fast turnaround" else Option.none })
  | _, _ => []

-- ─── Turn orchestration (POST handler of the API route) ──────────────────────

/-- Regex-match outcomes of one inbound message, as observed by the POST
handler on the trimmed message.  `unsure` is `isUnsurePhrase(trimmed)`;
`numeric` is the capture of the bare-number pattern
`^\s*\$?(\d+(\.\d+)?)\s*$` (note the optional dollar sign and the optional
decimal part, read with `parseFloat`); `range` holds the two captures of the
bare-range patterns `between A and B`, `A to B`, `A-B`; `text` carries the
extraction features of the same message for the fall-through to
`extractFromText`. -/
structure TurnMsg where
  unsure : Bool
  numeric : Option ℚ
  range : Option (ℚ × ℚ)
  text : TextFeatures
deriving DecidableEq, Repr

/-- Step 2 of the handler: the state after the unsure short-circuit, the
bare-range and bare-number pre-passes, or deterministic extraction.  A bare
range goes to quantity (`Math.round` of the cents-rounded midpoint) when
both quantity and budget are unset, to budget (cents-rounded midpoint) when
only quantity is set; a bare number goes to quantity or budget likewise,
unrounded; every other case falls through to `extractFromText`. -/
def turnState1 (m : TurnMsg) (s : ChatState) : ChatState :=
  if m.unsure then s
  else
    match m.range with
    | some (a, b) =>
        if 0 < a ∧ 0 < b then
          let mid := roundCents ((a + b) / 2)
          if s.quantity = Option.none ∧ s.budgetPerUnitUsd = Option.none then
            { s with quantity := some ((jsRound mid : ℤ) : ℚ) }
          else if s.quantity ≠ Option.none ∧ s.budgetPerUnitUsd = Option.none then
            { s with budgetPerUnitUsd := some mid }
          else extractFromText m.text s
        else extractFromText m.text s
    | Option.none =>
        match m.numeric with
        | some n =>
            if 0 < n then
              if s.quantity = Option.none ∧ s.budgetPerUnitUsd = Option.none then
                { s with quantity := some n }
              else if s.quantity ≠ Option.none ∧ s.budgetPerUnitUsd = Option.none then
                { s with budgetPerUnitUsd := some n }
              else extractFromText m.text s
            else extractFromText m.text s
        | Option.none => extractFromText m.text s

/-- `missing.filter((f) => f !== "email")` from step 5 of the handler. -/
def missingNonEmail (missing : List String) : List String :=
  missing.filter (fun f => f ≠ "email")

/-- Step 5 of the handler: `nextField` is the first entry of `missing`
excluding "email"; when there is none, "email" is selected only when the
mode is not streamlined, both contacts are absent and "email" is missing. -/
def initialNextField (missing : List String) (mode : ComplexityMode) (s1 : ChatState) :
    Option String :=
  match missingNonEmail missing with
  | f :: _ => some f
  | [] =>
      if mode ≠ ComplexityMode.streamlined ∧ s1.email = Option.none ∧
          s1.phone = Option.none ∧ "email" ∈ missing then
        some "email"
      else Option.none

/-- Step 5b's recomputation of `nextField` after a default was applied: the
first non-email entry, else "email" whenever it is in `missing` — with no
mode or contact condition. -/
def recomputeNextField (missing : List String) : Option String :=
  match missingNonEmail missing with
  | f :: _ => some f
  | [] => if "email" ∈ missing then some "email" else Option.none

/-- Step 5b of the handler: when the user said "unsure" and a field is
targeted, apply the fixed default (`branding → "none"`,
`international → false`; any other field gets an empty `skipValue` and
nothing changes), then recompute `missing` and `nextField`. -/
def applyUnsureDefault (unsure : Bool) (nextField : Option String) (s1 : ChatState)
    (missing : List String) : ChatState × List String × Option String :=
  if unsure then
    match nextField with
    | some f =>
        let skip : Option ChatState :=
          if f = "branding" then some { s1 with branding := some BrandingType.noBranding }
          else if f = "international" then some { s1 with international := some false }
          else Option.none
        match skip with
        | some s2 =>
            let m2 := nextMissing s2
            (s2, m2, recomputeNextField m2)
        | Option.none => (s1, missing, nextField)
    | Option.none => (s1, missing, nextField)
  else (s1, missing, nextField)

/-- The deterministic turn outcome the handler builds the response from:
the final state, score, mode, missing list and targeted field. -/
structure TurnResult where
  state1 : ChatState
  score : Nat
  mode : ComplexityMode
  missing : List String
  nextField : Option String
deriving DecidableEq, Repr

/-- Steps 2–5b of the POST handler composed: state update, complexity,
missing fields, next-field selection and the unsure-default pass.  The
response's `state`, `mode`, `complexityScore`, `missing` and the question
target are all read from this result. -/
def processTurnCore (m : TurnMsg) (s : ChatState) : TurnResult :=
  let s1 := turnState1 m s
  let cx := computeComplexity s1
  let missing := nextMissing s1
  let nf := initialNextField missing cx.mode s1
  let out := applyUnsureDefault m.unsure nf s1 missing
  { state1 := out.1, score := cx.score, mode := cx.mode,
    missing := out.2.1, nextField := out.2.2 }

-- ─── Per-field characterizations of the extraction steps ─────────────────────

/-- Quantity value after the quantity block, as a function of the old value. -/
def qtyAfter (f : TextFeatures) (old : Option ℚ) : Option ℚ :=
  let o1 :=
    match f.rangeQty with
    | some (a, b) =>
        if 0 < a ∧ 0 < b then some ((jsRound (((a : ℚ) + (b : ℚ)) / 2) : ℤ) : ℚ) else old
    | Option.none => old
  let o2 :=
    if o1 = Option.none then
      match f.qtySingle with
      | some n => some (n : ℚ)
      | Option.none => o1
    else o1
  if o2 = Option.none then
    match f.qtyFallback with
    | some n => some (n : ℚ)
    | Option.none => o2
  else o2

/-- Budget value after the budget block, as a function of the old value. -/
def budgetAfter (f : TextFeatures) (old : Option ℚ) : Option ℚ :=
  let o1 :=
    match f.rangeBudget with
    | some (a, b) => if 0 < a ∧ 0 < b then some (roundCents ((a + b) / 2)) else old
    | Option.none => old
  if o1 = Option.none then
    match f.budgetSingle with
    | some n => some n
    | Option.none => o1
  else o1

/-- Shipping type after the shipping block. -/
def shipAfter (f : TextFeatures) (old : Option ShippingType) : Option ShippingType :=
  if f.individualKw then some ShippingType.individual
  else if f.bulkKw then some ShippingType.bulk
  else old

/-- Branding after the branding block. -/
def brandingAfter (f : TextFeatures) (old : Option BrandingType) : Option BrandingType :=
  if f.uncertainPhrase && f.brandingVocab then Option.none
  else
    match f.brandingHit with
    | some t => some t
    | Option.none => old

/-- Dynamic qualification flag after the branding block. -/
def flagAfter (f : TextFeatures) (old : Bool) : Bool :=
  if f.uncertainPhrase && f.brandingVocab then true else old

/-- Distribution timing after its block (reads the current shipping type). -/
def distAfter (f : TextFeatures) (ship : Option ShippingType)
    (old : Option DistributionTiming) : Option DistributionTiming :=
  if ship = some ShippingType.bulk ∧ old = Option.none then
    if f.unsurePhrase && f.lenUnder60 then some DistributionTiming.unknown
    else if f.allAtOnceKw then some DistributionTiming.all_at_once
    else if f.overTimeKw then some DistributionTiming.over_time
    else old
  else old

/-- Address handling after its block (reads the current shipping type). -/
def addrAfter (f : TextFeatures) (ship : Option ShippingType)
    (old : Option AddressHandling) : Option AddressHandling :=
  if ship = some ShippingType.individual ∧ old = Option.none then
    if f.unsurePhrase && f.lenUnder60 then some AddressHandling.unknown
    else if f.provideKw then some AddressHandling.provided
    else if f.handleKw then some AddressHandling.handled_by_us
    else old
  else old

/-- International flag after its block. -/
def intlAfter (f : TextFeatures) (old : Option Bool) : Option Bool :=
  if f.bareYes then some true
  else if f.bareNo || f.noIntlKw then some false
  else if f.intlKw then some true
  else old

/-- Email after its block. -/
def emailAfter (f : TextFeatures) (old : Option String) : Option String :=
  match f.emailCapture with
  | some e => some e.toLower
  | Option.none => old

/-- Phone after its block. -/
def phoneAfter (f : TextFeatures) (old : Option String) : Option String :=
  match f.phoneCapture with
  | some p => if 10 ≤ (p.toList.filter Char.isDigit).length then some (jsTrim p) else old
  | Option.none => old

/-- Deadline text after its block. -/
def deadlineAfter (f : TextFeatures) (old : Option String) : Option String :=
  match f.deadlineCapture with
  | some d => some (jsTrim d)
  | Option.none => old

/-- The fixed evaluation order of field keys in the resolver, per the spec. -/
def fieldOrder : List String :=
  ["quantity", "budgetPerUnitUsd", "deadlineText", "shippingType", "branding",
   "international", "distributionTiming", "addressHandling", "email"]

/-- Spec-side inclusion condition for each key: the five base fields iff
absent; international/addressHandling iff individual shipping and absent;
distributionTiming iff bulk shipping and absent; email iff both contacts
are absent. -/
def fieldNeeded (s : ChatState) : String → Bool
  | "quantity" => s.quantity.isNone
  | "budgetPerUnitUsd" => s.budgetPerUnitUsd.isNone
  | "deadlineText" => s.deadlineText.isNone
  | "shippingType" => s.shippingType.isNone
  | "branding" => s.branding.isNone
  | "international" =>
      decide (s.shippingType = some ShippingType.individual) && s.international.isNone
  | "distributionTiming" =>
      decide (s.shippingType = some ShippingType.bulk) && s.distributionTiming.isNone
  | "addressHandling" =>
      decide (s.shippingType = some ShippingType.individual) && s.addressHandling.isNone
  | "email" => s.email.isNone && s.phone.isNone
  | _ => false

/-- A prior state with every field set (used by witnesses). -/
def fullState : ChatState where
  quantity := some 10
  budgetPerUnitUsd := some 20
  shippingType := some ShippingType.bulk
  branding := some BrandingType.sticker
  international := some false
  email := some "a@b.co"
  phone := some "1234567890"
  deadlineText := some "by June"
  distributionTiming := some DistributionTiming.all_at_once
  addressHandling := some AddressHandling.provided
  brandingNeedsQualification := false

/-- Features of an utterance matching both the uncertainty regex and the
branding-vocabulary regex and nothing else. -/
def uncertainFeatures : TextFeatures :=
  { noFeatures with uncertainPhrase := true, brandingVocab := true }

/-- Features of the Scenario D message
"250 embroidered hoodies, ship to individual addresses in US and Canada,
you handle collection and distribution, need them in 2 weeks.":
pattern 1 of the quantity cascade captures 250 ("250 embroidered hoodies");
no budget pattern fires; "individual addresses" hits the individual keyword
set; "embroidered" hits the embroidery branding rule; "you handle
collection" hits the handled-by-us phrasing; "Canada" hits the
international keyword set (and no domestic phrase matches, since "in US"
lacks the "the" of `in the us`); the deadline cascade's fifth pattern
captures "in 2 weeks". -/
def scenarioD : TextFeatures :=
  { noFeatures with
    qtySingle := some 250,
    individualKw := true,
    brandingHit := some BrandingType.embroidery,
    handleKw := true,
    intlKw := true,
    deadlineCapture := some "in 2 weeks" }

/-- Spec-side next-field selection rule, as claim C5 words it: first entry of
`missing` excluding "email"; "email" only when that is null, the tier is not
streamlined, both contacts are absent and "email" is in `missing`. -/
def claimInitialNext (missing : List String) (mode : ComplexityMode)
    (emailAbsent phoneAbsent : Bool) : Option String :=
  match missing.filter (fun f => f ≠ "email") with
  | f :: _ => some f
  | [] =>
      if mode ≠ ComplexityMode.streamlined ∧ emailAbsent = true ∧ phoneAbsent = true ∧
          "email" ∈ missing then
        some "email"
      else Option.none

/-- The recomputation rule the code actually applies after an unsure
default: first non-email entry, else "email" whenever it is in `missing` —
with no tier or contact condition. -/
def claimRecomputedNext (missing : List String) : Option String :=
  match missing.filter (fun f => f ≠ "email") with
  | f :: _ => some f
  | [] => if "email" ∈ missing then some "email" else Option.none

/-- A state one unsure reply away from the recompute gap: every core field
except branding is set, both contacts are absent, the score is 1
(streamlined tier). -/
def preUnsureState : ChatState :=
  { emptyChatState with
    quantity := some 50, budgetPerUnitUsd := some 20,
    deadlineText := some "by June", shippingType := some ShippingType.bulk,
    distributionTiming := some DistributionTiming.all_at_once }

/-- An "I don't know" reply: matches the unsure pattern, is not a bare
number or range, and fires no extraction regex. -/
def unsureMsg : TurnMsg :=
  { unsure := true, numeric := Option.none, range := Option.none, text := noFeatures }

/-- A state whose only open non-contact field is `international`: individual
shipping with address handling resolved, so the next target is the
international question. -/
def preIntlState : ChatState :=
  { emptyChatState with
    quantity := some 120, budgetPerUnitUsd := some 85,
    deadlineText := some "mid-December", shippingType := some ShippingType.individual,
    branding := some BrandingType.insert,
    addressHandling := some AddressHandling.provided }

/-- The bare decimal reply "12.5": trimmed, it matches the numeric pre-pass
pattern `^\s*\$?(\d+(\.\d+)?)\s*$` with capture 12.5 (`parseFloat` keeps the
fraction), is not an unsure phrase, and matches neither the bare-range
patterns nor any extraction regex. -/
def bareDecimalMsg : TurnMsg :=
  { unsure := false, numeric := some (25 / 2 : ℚ), range := Option.none, text := noFeatures }

instance : IsTrans Bundle bundleLE where
  trans a b c hab hbc := by
    unfold bundleLE at *
    rcases hab with h1 | ⟨e1, p1⟩ <;> rcases hbc with h2 | ⟨e2, p2⟩
    · exact Or.inl (lt_trans h1 h2)
    · exact Or.inl (by omega)
    · exact Or.inl (by omega)
    · exact Or.inr ⟨e1.trans e2, le_trans p2 p1⟩

instance : IsTotal Bundle bundleLE where
  total a b := by
    unfold bundleLE
    rcases Nat.lt_trichotomy a.leadTimeDays b.leadTimeDays with h | h | h
    · exact Or.inl (Or.inl h)
    · rcases le_total b.unitPrice a.unitPrice with hp | hp
      · exact Or.inl (Or.inr ⟨h, hp⟩)
      · exact Or.inr (Or.inr ⟨h.symm, hp⟩)
    · exact Or.inr (Or.inl h)

/-- The claimed ordering of the returned suggestions: lead time ascending,
ties broken by unit price descending. -/
def sbLE (a b : SuggestedBundle) : Prop :=
  a.leadTimeDays < b.leadTimeDays ∨
    (a.leadTimeDays = b.leadTimeDays ∧ b.unitPrice ≤ a.unitPrice)

/-- The concrete state used by the C7 witness: quantity 50, budget 40,
shipping and branding unknown. -/
def wBundleState : ChatState :=
  { emptyChatState with quantity := some 50, budgetPerUnitUsd := some 40 }

-- ─── Theorems ───────────────────────────────────────────────────────────────

theorem stepQuantity_eq (f : TextFeatures) (st : ChatState) :
    stepQuantity f st = { st with quantity := qtyAfter f st.quantity } := by
  unfold stepQuantity qtyAfter
  rcases f.rangeQty with _ | ⟨a, b⟩ <;>
    rcases f.qtySingle with _ | n <;>
    rcases f.qtyFallback with _ | k <;>
    simp <;> split_ifs <;> rfl

theorem stepBudget_eq (f : TextFeatures) (st : ChatState) :
    stepBudget f st = { st with budgetPerUnitUsd := budgetAfter f st.budgetPerUnitUsd } := by
  unfold stepBudget budgetAfter
  rcases f.rangeBudget with _ | ⟨a, b⟩ <;>
    rcases f.budgetSingle with _ | n <;>
    simp <;> split_ifs <;> rfl

theorem stepShipping_eq (f : TextFeatures) (st : ChatState) :
    stepShipping f st = { st with shippingType := shipAfter f st.shippingType } := by
  unfold stepShipping shipAfter
  split_ifs <;> rfl

theorem stepBranding_eq (f : TextFeatures) (st : ChatState) :
    stepBranding f st =
      { st with branding := brandingAfter f st.branding,
                brandingNeedsQualification := flagAfter f st.brandingNeedsQualification } := by
  unfold stepBranding brandingAfter flagAfter
  rcases f.brandingHit with _ | t <;> split_ifs <;> simp_all

theorem stepDistribution_eq (f : TextFeatures) (st : ChatState) :
    stepDistribution f st =
      { st with distributionTiming := distAfter f st.shippingType st.distributionTiming } := by
  unfold stepDistribution distAfter
  split_ifs <;> rfl

theorem stepAddress_eq (f : TextFeatures) (st : ChatState) :
    stepAddress f st =
      { st with addressHandling := addrAfter f st.shippingType st.addressHandling } := by
  unfold stepAddress addrAfter
  split_ifs <;> rfl

theorem stepInternational_eq (f : TextFeatures) (st : ChatState) :
    stepInternational f st = { st with international := intlAfter f st.international } := by
  unfold stepInternational intlAfter
  split_ifs <;> rfl

theorem stepEmail_eq (f : TextFeatures) (st : ChatState) :
    stepEmail f st = { st with email := emailAfter f st.email } := by
  unfold stepEmail emailAfter
  rcases f.emailCapture with _ | e <;> rfl

theorem stepPhone_eq (f : TextFeatures) (st : ChatState) :
    stepPhone f st = { st with phone := phoneAfter f st.phone } := by
  unfold stepPhone phoneAfter
  rcases f.phoneCapture with _ | p
  · rfl
  · dsimp only
    split_ifs <;> rfl

theorem stepDeadline_eq (f : TextFeatures) (st : ChatState) :
    stepDeadline f st = { st with deadlineText := deadlineAfter f st.deadlineText } := by
  unfold stepDeadline deadlineAfter
  rcases f.deadlineCapture with _ | d <;> rfl

/-- Master characterization: the full extraction pass written as one record
update.  Note the distribution/address gates read the shipping type set
*this* turn (the blocks run after the shipping block). -/
theorem extractFromText_eq (f : TextFeatures) (prev : ChatState) :
    extractFromText f prev =
      { quantity := qtyAfter f prev.quantity,
        budgetPerUnitUsd := budgetAfter f prev.budgetPerUnitUsd,
        shippingType := shipAfter f prev.shippingType,
        branding := brandingAfter f prev.branding,
        international := intlAfter f prev.international,
        email := emailAfter f prev.email,
        phone := phoneAfter f prev.phone,
        deadlineText := deadlineAfter f prev.deadlineText,
        distributionTiming := distAfter f (shipAfter f prev.shippingType) prev.distributionTiming,
        addressHandling := addrAfter f (shipAfter f prev.shippingType) prev.addressHandling,
        brandingNeedsQualification := flagAfter f prev.brandingNeedsQualification } := by
  unfold extractFromText
  simp only [stepQuantity_eq, stepBudget_eq, stepShipping_eq, stepBranding_eq,
    stepDistribution_eq, stepAddress_eq, stepInternational_eq, stepEmail_eq,
    stepPhone_eq, stepDeadline_eq]

-- ─── List distribution helpers ───────────────────────────────────────────────

theorem ite_singleton_append {c : Prop} [Decidable c] (a : String) (xs : List String) :
    (if c then [a] else []) ++ xs = if c then a :: xs else xs := by
  split_ifs <;> rfl

theorem ite_cons_append {c : Prop} [Decidable c] (a : String) (xs ys : List String) :
    (if c then a :: xs else xs) ++ ys = if c then a :: (xs ++ ys) else xs ++ ys := by
  split_ifs <;> rfl

-- ─── Claim theorems ──────────────────────────────────────────────────────────

/-- C1: for every ChatState, `computeComplexity` returns an integer score in
[1, 5], and the mode is the clamped score's band (1–2 streamlined,
3–4 assisted, 5 high_touch) except that a set `brandingNeedsQualification`
flag forces the mode to assisted regardless of the band. -/
theorem computeComplexity_score_in_range_and_mode_band (s : ChatState) :
    1 ≤ (computeComplexity s).score ∧ (computeComplexity s).score ≤ 5 ∧
    (computeComplexity s).mode =
      (if s.brandingNeedsQualification then ComplexityMode.assisted
       else if (computeComplexity s).score ≤ 2 then ComplexityMode.streamlined
       else if (computeComplexity s).score ≤ 4 then ComplexityMode.assisted
       else ComplexityMode.high_touch) := by
  refine ⟨?_, ?_, ?_⟩
  · simp only [computeComplexity]
    exact le_min (by norm_num) (Nat.le_max_left 1 _)
  · simp only [computeComplexity]
    exact Nat.min_le_left 5 _
  · simp only [computeComplexity]

/-- C2: `nextMissing` returns exactly the keys of the fixed evaluation order
whose spec-side inclusion condition holds, in that order; in particular
`distributionTiming` only ever appears under bulk shipping and
`addressHandling` only under individual shipping. -/
theorem nextMissing_matches_field_order (s : ChatState) :
    nextMissing s = fieldOrder.filter (fieldNeeded s) ∧
    ("distributionTiming" ∈ nextMissing s →
      s.shippingType = some ShippingType.bulk ∧ s.distributionTiming = Option.none) ∧
    ("addressHandling" ∈ nextMissing s →
      s.shippingType = some ShippingType.individual ∧ s.addressHandling = Option.none) := by
  have h1 : nextMissing s = fieldOrder.filter (fieldNeeded s) := by
    have e1 : fieldNeeded s "quantity" = s.quantity.isNone := rfl
    have e2 : fieldNeeded s "budgetPerUnitUsd" = s.budgetPerUnitUsd.isNone := rfl
    have e3 : fieldNeeded s "deadlineText" = s.deadlineText.isNone := rfl
    have e4 : fieldNeeded s "shippingType" = s.shippingType.isNone := rfl
    have e5 : fieldNeeded s "branding" = s.branding.isNone := rfl
    have e6 : fieldNeeded s "international" =
        (decide (s.shippingType = some ShippingType.individual) && s.international.isNone) := rfl
    have e7 : fieldNeeded s "distributionTiming" =
        (decide (s.shippingType = some ShippingType.bulk) && s.distributionTiming.isNone) := rfl
    have e8 : fieldNeeded s "addressHandling" =
        (decide (s.shippingType = some ShippingType.individual) && s.addressHandling.isNone) := rfl
    have e9 : fieldNeeded s "email" = (s.email.isNone && s.phone.isNone) := rfl
    simp only [nextMissing, fieldOrder, List.filter_cons, List.filter_nil, e1, e2, e3, e4, e5,
      e6, e7, e8, e9, List.append_assoc, ite_singleton_append, ite_cons_append,
      List.append_nil, List.nil_append]
  refine ⟨h1, ?_, ?_⟩
  · intro h
    rw [h1] at h
    have h2 := (List.mem_filter.mp h).2
    simpa [fieldNeeded, Option.isNone_iff_eq_none] using h2
  · intro h
    rw [h1] at h
    have h2 := (List.mem_filter.mp h).2
    simpa [fieldNeeded, Option.isNone_iff_eq_none] using h2

/-- Witness for C2: the resolver agrees with the spec-side description on a
bulk state and on an individual-shipping state, and the conditional keys'
implications are exercised on inputs where they actually occur. -/
theorem nextMissing_matches_field_order_witness :
    (nextMissing { emptyChatState with shippingType := some ShippingType.bulk } =
      fieldOrder.filter (fieldNeeded { emptyChatState with shippingType := some ShippingType.bulk }) ∧
      { emptyChatState with shippingType := some ShippingType.bulk }.shippingType =
          some ShippingType.bulk ∧
      { emptyChatState with shippingType := some ShippingType.bulk }.distributionTiming =
          Option.none) ∧
    ({ emptyChatState with shippingType := some ShippingType.individual }.shippingType =
          some ShippingType.individual ∧
      { emptyChatState with shippingType := some ShippingType.individual }.addressHandling =
          Option.none) :=
  ⟨⟨(nextMissing_matches_field_order _).1,
    (nextMissing_matches_field_order
      { emptyChatState with shippingType := some ShippingType.bulk }).2.1 (by decide)⟩,
   (nextMissing_matches_field_order
      { emptyChatState with shippingType := some ShippingType.individual }).2.2 (by decide)⟩

theorem qtyAfter_isSome (f : TextFeatures) (o : Option ℚ) (h : o.isSome) :
    (qtyAfter f o).isSome := by
  rcases o with _ | v
  · simp at h
  · unfold qtyAfter
    rcases f.rangeQty with _ | ⟨a, b⟩
    · simp
    · dsimp only
      split_ifs <;> simp_all

theorem budgetAfter_isSome (f : TextFeatures) (o : Option ℚ) (h : o.isSome) :
    (budgetAfter f o).isSome := by
  rcases o with _ | v
  · simp at h
  · unfold budgetAfter
    rcases f.rangeBudget with _ | ⟨a, b⟩
    · simp
    · dsimp only
      split_ifs <;> simp_all

theorem shipAfter_isSome (f : TextFeatures) (o : Option ShippingType) (h : o.isSome) :
    (shipAfter f o).isSome := by
  unfold shipAfter
  split_ifs <;> simp_all

theorem intlAfter_isSome (f : TextFeatures) (o : Option Bool) (h : o.isSome) :
    (intlAfter f o).isSome := by
  unfold intlAfter
  split_ifs <;> simp_all

theorem emailAfter_isSome (f : TextFeatures) (o : Option String) (h : o.isSome) :
    (emailAfter f o).isSome := by
  unfold emailAfter
  rcases f.emailCapture with _ | e <;> simp_all

theorem phoneAfter_isSome (f : TextFeatures) (o : Option String) (h : o.isSome) :
    (phoneAfter f o).isSome := by
  unfold phoneAfter
  rcases f.phoneCapture with _ | p
  · simp_all
  · dsimp only
    split_ifs <;> simp_all

theorem deadlineAfter_isSome (f : TextFeatures) (o : Option String) (h : o.isSome) :
    (deadlineAfter f o).isSome := by
  unfold deadlineAfter
  rcases f.deadlineCapture with _ | d <;> simp_all

theorem distAfter_isSome (f : TextFeatures) (sh : Option ShippingType)
    (o : Option DistributionTiming) (h : o.isSome) : (distAfter f sh o).isSome := by
  unfold distAfter
  split_ifs <;> simp_all

theorem addrAfter_isSome (f : TextFeatures) (sh : Option ShippingType)
    (o : Option AddressHandling) (h : o.isSome) : (addrAfter f sh o).isSome := by
  unfold addrAfter
  split_ifs <;> simp_all

theorem brandingAfter_none_iff (f : TextFeatures) (o : Option BrandingType) (h : o.isSome) :
    (brandingAfter f o = Option.none ↔ f.uncertainPhrase = true ∧ f.brandingVocab = true) := by
  unfold brandingAfter
  rcases f.brandingHit with _ | t <;> rcases o with _ | v <;> split_ifs <;> simp_all

/-- C3: extraction never clears a previously set field — every field that is
set in the prior state is still set afterwards — with the single exception
of `branding`, which ends up cleared exactly when the utterance matches
both the uncertainty regex and the branding-vocabulary regex; in that case
the qualification flag is also set. -/
theorem extractFromText_preserves_set_fields (f : TextFeatures) (prev : ChatState) :
    (prev.quantity.isSome → (extractFromText f prev).quantity.isSome) ∧
    (prev.budgetPerUnitUsd.isSome → (extractFromText f prev).budgetPerUnitUsd.isSome) ∧
    (prev.shippingType.isSome → (extractFromText f prev).shippingType.isSome) ∧
    (prev.international.isSome → (extractFromText f prev).international.isSome) ∧
    (prev.email.isSome → (extractFromText f prev).email.isSome) ∧
    (prev.phone.isSome → (extractFromText f prev).phone.isSome) ∧
    (prev.deadlineText.isSome → (extractFromText f prev).deadlineText.isSome) ∧
    (prev.distributionTiming.isSome → (extractFromText f prev).distributionTiming.isSome) ∧
    (prev.addressHandling.isSome → (extractFromText f prev).addressHandling.isSome) ∧
    (prev.branding.isSome →
      ((extractFromText f prev).branding = Option.none ↔
        f.uncertainPhrase = true ∧ f.brandingVocab = true)) ∧
    (f.uncertainPhrase = true → f.brandingVocab = true →
      (extractFromText f prev).branding = Option.none ∧
      (extractFromText f prev).brandingNeedsQualification = true) := by
  rw [extractFromText_eq]
  refine ⟨?_, ?_, ?_, ?_, ?_, ?_, ?_, ?_, ?_, ?_, ?_⟩
  · exact qtyAfter_isSome f _
  · exact budgetAfter_isSome f _
  · exact shipAfter_isSome f _
  · exact intlAfter_isSome f _
  · exact emailAfter_isSome f _
  · exact phoneAfter_isSome f _
  · exact deadlineAfter_isSome f _
  · exact distAfter_isSome f _ _
  · exact addrAfter_isSome f _ _
  · exact brandingAfter_none_iff f _
  · intro hu hv
    constructor
    · simp [brandingAfter, hu, hv]
    · simp [flagAfter, hu, hv]

/-- Witness for C3: on a fully populated prior state, an uncertain-branding
utterance keeps quantity set but clears branding and raises the flag, while
a silent utterance leaves branding set. -/
theorem extractFromText_preserves_set_fields_witness :
    ((extractFromText uncertainFeatures fullState).quantity.isSome ∧
      (extractFromText uncertainFeatures fullState).branding = Option.none ∧
      (extractFromText uncertainFeatures fullState).brandingNeedsQualification = true) ∧
    ¬ (extractFromText noFeatures fullState).branding = Option.none := by
  constructor
  · refine ⟨(extractFromText_preserves_set_fields uncertainFeatures fullState).1 (by decide),
      ?_, ?_⟩
    · exact ((extractFromText_preserves_set_fields uncertainFeatures
        fullState).2.2.2.2.2.2.2.2.2.2 rfl rfl).1
    · exact ((extractFromText_preserves_set_fields uncertainFeatures
        fullState).2.2.2.2.2.2.2.2.2.2 rfl rfl).2
  · intro hcl
    have h := ((extractFromText_preserves_set_fields noFeatures
      fullState).2.2.2.2.2.2.2.2.2.1 (by decide)).mp hcl
    simp [noFeatures] at h

theorem qtyAfter_range (f : TextFeatures) (a b : Nat) (hr : f.rangeQty = some (a, b))
    (ha : 0 < a) (hb : 0 < b) (o : Option ℚ) :
    qtyAfter f o = some ((jsRound (((a : ℚ) + (b : ℚ)) / 2) : ℤ) : ℚ) := by
  unfold qtyAfter
  rw [hr]
  simp [ha, hb]

theorem qtyAfter_no_range (f : TextFeatures) (hr : f.rangeQty = Option.none) (q : ℚ) :
    qtyAfter f (some q) = some q := by
  unfold qtyAfter
  rw [hr]
  simp

theorem budgetAfter_range (f : TextFeatures) (a b : ℚ) (hr : f.rangeBudget = some (a, b))
    (ha : 0 < a) (hb : 0 < b) (o : Option ℚ) :
    budgetAfter f o = some (roundCents ((a + b) / 2)) := by
  unfold budgetAfter
  rw [hr]
  simp [ha, hb]

theorem budgetAfter_no_range (f : TextFeatures) (hr : f.rangeBudget = Option.none) (q : ℚ) :
    budgetAfter f (some q) = some q := by
  unfold budgetAfter
  rw [hr]
  simp

/-- C9: in extraction, a quantity range phrase overwrites an already-set
quantity with the rounded midpoint, while the single-number quantity
patterns (and the swag fallback) never change an already-set quantity; the
same asymmetry holds for the budget (range overwrites with the cents-rounded
midpoint, singles are gated on the field being unset). -/
theorem extract_range_overwrites_single_gated (f : TextFeatures) (prev : ChatState) :
    (∀ a b : Nat, f.rangeQty = some (a, b) → 0 < a → 0 < b →
      (extractFromText f prev).quantity =
        some ((jsRound (((a : ℚ) + (b : ℚ)) / 2) : ℤ) : ℚ)) ∧
    (f.rangeQty = Option.none → ∀ q : ℚ, prev.quantity = some q →
      (extractFromText f prev).quantity = some q) ∧
    (∀ a b : ℚ, f.rangeBudget = some (a, b) → 0 < a → 0 < b →
      (extractFromText f prev).budgetPerUnitUsd = some (roundCents ((a + b) / 2))) ∧
    (f.rangeBudget = Option.none → ∀ q : ℚ, prev.budgetPerUnitUsd = some q →
      (extractFromText f prev).budgetPerUnitUsd = some q) := by
  rw [extractFromText_eq]
  refine ⟨?_, ?_, ?_, ?_⟩
  · intro a b hr ha hb
    exact qtyAfter_range f a b hr ha hb _
  · intro hr q hq
    rw [hq]
    exact qtyAfter_no_range f hr q
  · intro a b hr ha hb
    exact budgetAfter_range f a b hr ha hb _
  · intro hr q hq
    rw [hq]
    exact budgetAfter_no_range f hr q

/-- Witness for C9: a range capture (30, 50) overwrites quantity 10 with the
midpoint 40 even though a single pattern captured 50; with no range capture,
the single capture 99 leaves the set quantity 10 untouched.  The budget
behaves the same way with range (25, 35) and midpoint 30. -/
theorem extract_range_overwrites_single_gated_witness :
    (extractFromText
        { noFeatures with rangeQty := some (30, 50), qtySingle := some 50 }
        { emptyChatState with quantity := some 10 }).quantity = some 40 ∧
    (extractFromText { noFeatures with qtySingle := some 99 }
        { emptyChatState with quantity := some 10 }).quantity = some 10 ∧
    (extractFromText
        { noFeatures with rangeBudget := some (25, 35), budgetSingle := some 35 }
        { emptyChatState with budgetPerUnitUsd := some 12 }).budgetPerUnitUsd = some 30 ∧
    (extractFromText { noFeatures with budgetSingle := some 99 }
        { emptyChatState with budgetPerUnitUsd := some 12 }).budgetPerUnitUsd = some 12 := by
  refine ⟨?_, ?_, ?_, ?_⟩
  · have h := (extract_range_overwrites_single_gated
      { noFeatures with rangeQty := some (30, 50), qtySingle := some 50 }
      { emptyChatState with quantity := some 10 }).1 30 50 rfl (by norm_num) (by norm_num)
    rw [h]
    norm_num [jsRound]
  · exact (extract_range_overwrites_single_gated _ _).2.1 rfl 10 rfl
  · have h := (extract_range_overwrites_single_gated
      { noFeatures with rangeBudget := some (25, 35), budgetSingle := some 35 }
      { emptyChatState with budgetPerUnitUsd := some 12 }).2.2.1 25 35 rfl
      (by norm_num) (by norm_num)
    rw [h]
    norm_num [roundCents, jsRound]
  · exact (extract_range_overwrites_single_gated _ _).2.2.2 rfl 12 rfl

-- ─── Scenario D (spec §8) ────────────────────────────────────────────────────

/-- C4: running extraction on the empty state with the Scenario D message
and then scoring the result yields the clamped maximum score 5 and the
high_touch tier. -/
theorem scenarioD_score_and_mode :
    (computeComplexity (extractFromText scenarioD emptyChatState)).score = 5 ∧
    (computeComplexity (extractFromText scenarioD emptyChatState)).mode =
      ComplexityMode.high_touch := by
  constructor <;> decide

-- ─── Turn-level claims ───────────────────────────────────────────────────────

theorem turnState1_unsure (m : TurnMsg) (s : ChatState) (hu : m.unsure = true) :
    turnState1 m s = s := by
  simp [turnState1, hu]

theorem recomputeNextField_eq_claim (missing : List String) :
    recomputeNextField missing = claimRecomputedNext missing := rfl

/-- C5 counterexample: on `preUnsureState` with an unsure reply, the turn's
tier is streamlined and yet the final `nextField` is "email" — so the claim
that a streamlined turn never targets "email" is false on the code. -/
theorem streamlined_unsure_turn_targets_email :
    (processTurnCore unsureMsg preUnsureState).mode = ComplexityMode.streamlined ∧
    (processTurnCore unsureMsg preUnsureState).nextField = some "email" := by
  constructor <;> decide

/-- C5 (amended): the initial selection follows the claimed rule, but after
an unsure default is applied the recomputation follows the weaker rule with
no tier or contact condition; when no default applies the initial selection
stands. -/
theorem nextField_selection_rule (m : TurnMsg) (s : ChatState) :
    initialNextField (nextMissing (turnState1 m s)) (computeComplexity (turnState1 m s)).mode
        (turnState1 m s) =
      claimInitialNext (nextMissing (turnState1 m s))
        (computeComplexity (turnState1 m s)).mode
        (turnState1 m s).email.isNone (turnState1 m s).phone.isNone ∧
    (m.unsure = true →
      initialNextField (nextMissing (turnState1 m s)) (computeComplexity (turnState1 m s)).mode
          (turnState1 m s) = some "branding" →
      (processTurnCore m s).nextField =
        claimRecomputedNext (nextMissing
          { turnState1 m s with branding := some BrandingType.noBranding })) ∧
    (m.unsure = true →
      initialNextField (nextMissing (turnState1 m s)) (computeComplexity (turnState1 m s)).mode
          (turnState1 m s) = some "international" →
      (processTurnCore m s).nextField =
        claimRecomputedNext (nextMissing
          { turnState1 m s with international := some false })) ∧
    ((m.unsure = false ∨
        (initialNextField (nextMissing (turnState1 m s))
            (computeComplexity (turnState1 m s)).mode (turnState1 m s) ≠ some "branding" ∧
          initialNextField (nextMissing (turnState1 m s))
            (computeComplexity (turnState1 m s)).mode (turnState1 m s) ≠ some "international")) →
      (processTurnCore m s).nextField =
        initialNextField (nextMissing (turnState1 m s))
          (computeComplexity (turnState1 m s)).mode (turnState1 m s)) := by
  refine ⟨?_, ?_, ?_, ?_⟩
  · unfold initialNextField claimInitialNext missingNonEmail
    cases h : (nextMissing (turnState1 m s)).filter (fun f => f ≠ "email") with
    | nil => split_ifs <;> simp_all
    | cons f l => rfl
  · intro hu hnf
    simp only [processTurnCore, applyUnsureDefault, hu, hnf, recomputeNextField_eq_claim]
    simp
  · intro hu hnf
    simp only [processTurnCore, applyUnsureDefault, hu, hnf, recomputeNextField_eq_claim]
    simp
  · intro h
    rcases h with hu | ⟨h1, h2⟩
    · simp only [processTurnCore, applyUnsureDefault, hu]
      simp
    · cases hu : m.unsure with
      | false =>
          simp only [processTurnCore, applyUnsureDefault, hu]
          simp
      | true =>
          cases hnf : initialNextField (nextMissing (turnState1 m s))
              (computeComplexity (turnState1 m s)).mode (turnState1 m s) with
          | none =>
              simp only [processTurnCore, applyUnsureDefault, hu, hnf]
              simp
          | some f =>
              rw [hnf] at h1 h2
              have hf1 : f ≠ "branding" := by
                intro hf
                exact h1 (by rw [hf])
              have hf2 : f ≠ "international" := by
                intro hf
                exact h2 (by rw [hf])
              simp only [processTurnCore, applyUnsureDefault, hu, hnf]
              simp [hf1, hf2]

/-- Witness for the amended C5: on the concrete streamlined unsure turn the
initial selection rule and the weaker recomputation rule both evaluate as
stated, and the recomputed target is "email". -/
theorem nextField_selection_rule_witness :
    (processTurnCore unsureMsg preUnsureState).nextField =
      claimRecomputedNext (nextMissing
        { turnState1 unsureMsg preUnsureState with branding := some BrandingType.noBranding }) ∧
    claimRecomputedNext (nextMissing
        { turnState1 unsureMsg preUnsureState with branding := some BrandingType.noBranding }) =
      some "email" ∧
    initialNextField (nextMissing (turnState1 unsureMsg preUnsureState))
        (computeComplexity (turnState1 unsureMsg preUnsureState)).mode
        (turnState1 unsureMsg preUnsureState) =
      claimInitialNext (nextMissing (turnState1 unsureMsg preUnsureState))
        (computeComplexity (turnState1 unsureMsg preUnsureState)).mode
        (turnState1 unsureMsg preUnsureState).email.isNone
        (turnState1 unsureMsg preUnsureState).phone.isNone :=
  ⟨(nextField_selection_rule unsureMsg preUnsureState).2.1 rfl (by decide),
   by decide,
   (nextField_selection_rule unsureMsg preUnsureState).1⟩

/-- C6: on an unsure turn the returned state equals the input state except
for at most one fixed default — branding set to "none" when the targeted
field is branding, international set to false when it is international, and
no change at all for any other (or null) target. -/
theorem unsure_turn_state_frame (m : TurnMsg) (s : ChatState) (hu : m.unsure = true) :
    (initialNextField (nextMissing s) (computeComplexity s).mode s = some "branding" →
      (processTurnCore m s).state1 = { s with branding := some BrandingType.noBranding }) ∧
    (initialNextField (nextMissing s) (computeComplexity s).mode s = some "international" →
      (processTurnCore m s).state1 = { s with international := some false }) ∧
    (∀ f : Option String,
      initialNextField (nextMissing s) (computeComplexity s).mode s = f →
      f ≠ some "branding" → f ≠ some "international" →
      (processTurnCore m s).state1 = s) := by
  have hs : turnState1 m s = s := turnState1_unsure m s hu
  refine ⟨?_, ?_, ?_⟩
  · intro hnf
    simp only [processTurnCore, applyUnsureDefault, hs, hu, hnf]
    simp
  · intro hnf
    simp only [processTurnCore, applyUnsureDefault, hs, hu, hnf]
    simp
  · intro f hnf hf1 hf2
    cases f with
    | none =>
        simp only [processTurnCore, applyUnsureDefault, hs, hu, hnf]
        simp
    | some g =>
        have hg1 : g ≠ "branding" := by
          intro hg
          exact hf1 (by rw [hg])
        have hg2 : g ≠ "international" := by
          intro hg
          exact hf2 (by rw [hg])
        simp only [processTurnCore, applyUnsureDefault, hs, hu, hnf]
        simp [hg1, hg2]

/-- Witness for C6: the branding default on `preUnsureState`, the
international default on `preIntlState`, and the no-default case on the
empty state (whose target is quantity), each applied at an unsure reply. -/
theorem unsure_turn_state_frame_witness :
    (processTurnCore unsureMsg preUnsureState).state1 =
      { preUnsureState with branding := some BrandingType.noBranding } ∧
    (processTurnCore unsureMsg preIntlState).state1 =
      { preIntlState with international := some false } ∧
    (processTurnCore unsureMsg emptyChatState).state1 = emptyChatState :=
  ⟨(unsure_turn_state_frame unsureMsg preUnsureState rfl).1 (by decide),
   (unsure_turn_state_frame unsureMsg preIntlState rfl).2.1 (by decide),
   (unsure_turn_state_frame unsureMsg emptyChatState rfl).2.2
     (some "quantity") (by decide) (by decide) (by decide)⟩

/-- C8 (failing evaluation): the turn handler on the empty state with the
bare reply "12.5" returns a state whose quantity is the non-integral
rational 12.5 — the pre-pass assigns the `parseFloat` result without
rounding, violating the positive-integer quantity type declared by
`ChatStateSchema` (`z.number().int().positive()`). -/
theorem bare_decimal_reply_stores_fractional_quantity :
    (processTurnCore bareDecimalMsg emptyChatState).state1.quantity = some (25 / 2 : ℚ) ∧
    (25 / 2 : ℚ).den ≠ 1 := by
  have h0 : (0 : ℚ) < 25 / 2 := by norm_num
  constructor
  · simp [processTurnCore, applyUnsureDefault, bareDecimalMsg, turnState1, h0, emptyChatState]
  · norm_num

/-- C10: a trimmed message consisting of a dollar sign and a positive number
(captured as `n` by the pre-pass pattern, which treats the `$` as optional;
such a message matches no bare-range pattern and is not unsure) is assigned
to quantity when both quantity and budget are unset, and to budget when
quantity is set and budget is not. -/
theorem dollar_number_is_bare_number (s : ChatState) (tf : TextFeatures) (n : ℚ)
    (hn : 0 < n) :
    (s.quantity = Option.none → s.budgetPerUnitUsd = Option.none →
      turnState1 { unsure := false, numeric := some n, range := Option.none, text := tf } s =
        { s with quantity := some n }) ∧
    (s.quantity ≠ Option.none → s.budgetPerUnitUsd = Option.none →
      turnState1 { unsure := false, numeric := some n, range := Option.none, text := tf } s =
        { s with budgetPerUnitUsd := some n }) := by
  constructor
  · intro h1 h2
    simp [turnState1, hn, h1, h2]
  · intro h1 h2
    simp [turnState1, hn, h1, h2]

/-- Witness for C10: the reply "$45" on the empty state sets quantity 45;
on a state with quantity 40 and no budget it sets budget 45. -/
theorem dollar_number_is_bare_number_witness :
    turnState1 { unsure := false, numeric := some 45, range := Option.none, text := noFeatures }
        emptyChatState = { emptyChatState with quantity := some 45 } ∧
    turnState1 { unsure := false, numeric := some 45, range := Option.none, text := noFeatures }
        { emptyChatState with quantity := some 40 } =
      { { emptyChatState with quantity := some 40 } with budgetPerUnitUsd := some 45 } :=
  ⟨(dollar_number_is_bare_number emptyChatState noFeatures 45 (by norm_num)).1 rfl rfl,
   (dollar_number_is_bare_number { emptyChatState with quantity := some 40 } noFeatures 45
     (by norm_num)).2 (by decide) rfl⟩

-- ─── Bundle-matcher claim (C7) ───────────────────────────────────────────────

/-- C7: `suggestBundles` returns the empty list when quantity or budget is
absent; otherwise the result has at most 3 entries, is sorted by lead time
ascending with ties broken by price descending, and every entry is the
projection of a catalog bundle satisfying the margin bound
(`unitPrice ≤ budget × 0.75`), the quantity range, and the
shipping/branding eligibility (absent treated as unknown), annotated
"Fast turnaround" exactly when its lead time is at most 6 days. -/
theorem suggestBundles_spec (s : ChatState) :
    ((s.quantity = Option.none ∨ s.budgetPerUnitUsd = Option.none) → suggestBundles s = []) ∧
    (∀ q β : ℚ, s.quantity = some q → s.budgetPerUnitUsd = some β →
      ((suggestBundles s).length ≤ 3 ∧
       List.Sorted sbLE (suggestBundles s) ∧
       ∀ sb ∈ suggestBundles s, ∃ b ∈ BUNDLES,
         sb.name = b.name ∧ sb.unitPrice = b.unitPrice ∧ sb.leadTimeDays = b.leadTimeDays ∧
         b.unitPrice ≤ β * (0.75 : ℚ) ∧ (b.minQty : ℚ) ≤ q ∧ q ≤ (b.maxQty : ℚ) ∧
         s.shippingType.getD ShippingType.unknown ∈ b.eligibleShipping ∧
         s.branding.getD BrandingType.unknown ∈ b.eligibleBranding ∧
         (sb.why = some "Fast turnaround" ↔ sb.leadTimeDays ≤ 6))) := by
  constructor
  · intro h
    rcases h with h | h
    · simp [suggestBundles, h]
    · rcases hq : s.quantity with _ | q <;> simp [suggestBundles, hq, h]
  · intro q β hq hβ
    simp only [suggestBundles, hq, hβ]
    refine ⟨?_, ?_, ?_⟩
    · simp only [List.length_map]
      exact List.length_take_le 3 _
    · have hsort : List.Sorted bundleLE (List.insertionSort bundleLE
          (BUNDLES.filter (bundleOk q (β * (0.75 : ℚ)) (s.shippingType.getD ShippingType.unknown)
            (s.branding.getD BrandingType.unknown)))) :=
        List.sorted_insertionSort bundleLE _
      have htake : List.Sorted bundleLE ((List.insertionSort bundleLE
          (BUNDLES.filter (bundleOk q (β * (0.75 : ℚ)) (s.shippingType.getD ShippingType.unknown)
            (s.branding.getD BrandingType.unknown)))).take 3) :=
        List.Pairwise.sublist (List.take_sublist 3 _) hsort
      exact List.pairwise_map.mpr (htake.imp (fun h => h))
    · intro sb hsb
      rcases List.mem_map.mp hsb with ⟨b, hbtake, rfl⟩
      have hbsort : b ∈ List.insertionSort bundleLE
          (BUNDLES.filter (bundleOk q (β * (0.75 : ℚ)) (s.shippingType.getD ShippingType.unknown)
            (s.branding.getD BrandingType.unknown))) :=
        (List.take_sublist 3 _).mem hbtake
      have hbfilt := (List.mem_insertionSort bundleLE).mp hbsort
      have hb := List.mem_filter.mp hbfilt
      have hok := hb.2
      unfold bundleOk at hok
      split_ifs at hok with h1 h2 h3 h4
      all_goals try simp at hok
      push_neg at h2
      refine ⟨b, hb.1, rfl, rfl, rfl, le_of_not_lt h1, h2.1, ?_, h3, h4, ?_⟩
      · exact h2.2
      · by_cases h6 : b.leadTimeDays ≤ 6 <;> simp [h6]

/-- Witness for C7: no suggestions without a budget; on quantity 50 and
budget 40 the theorem's bound and ordering hold, and the concrete result is
Coffee Kit, Snack Box, Wellness / Tea Kit (lead times 5, 5, 6; prices 28,
18, 24), each annotated "Fast turnaround". -/
theorem suggestBundles_spec_witness :
    suggestBundles { emptyChatState with quantity := some 50 } = [] ∧
    (suggestBundles wBundleState).length ≤ 3 ∧
    List.Sorted sbLE (suggestBundles wBundleState) ∧
    (suggestBundles wBundleState).map (fun b => b.name) =
      ["Coffee Kit", "Snack Box", "Wellness / Tea Kit"] ∧
    (suggestBundles wBundleState).map (fun b => b.why) =
      [some "Fast turnaround", some "Fast turnaround", some "Fast turnaround"] := by
  refine ⟨(suggestBundles_spec _).1 (Or.inr rfl),
    ((suggestBundles_spec wBundleState).2 50 40 rfl rfl).1,
    ((suggestBundles_spec wBundleState).2 50 40 rfl rfl).2.1, ?_, ?_⟩ <;>
    norm_num [suggestBundles, BUNDLES, bundleOk, bundleLE, wBundleState, emptyChatState,
      List.insertionSort, List.orderedInsert]
